import Mathlib

set_option linter.unusedVariables false

namespace Tracker

/-!
Shallow embedding of the change-tracking core of the repository:
the connectors of connectors.py (FileConnector, FolderConnector,
SQLConnector), the cursor-preserving rebuild step of the reconcile
routines (`BotService.__actualize` in service.py, `BotService._actualize`
in tracker.py) and the chunked dispatch of `BotService.__send_by_parts`
(service.py).  Timestamps are modelled as `Nat`, filesystem and database
effects as explicit inputs.
-/

/-- Apostrophe character as a string, used to build literal messages. -/
def apos : String := String.singleton (Char.ofNat 39)

/-- Model of `[message[b:b+N] for b in range(0, len(message), N)]`, the
successive slices of length `N` used by `BotService.__send_by_parts`
(service.py lines 142-143) and `BotService._listen` (tracker.py lines
326-327).  Python raises on `N = 0` (`range` with zero step); the model
returns `[]` there, and every claim assumes `N > 0`. -/
def chunksOf {α : Type} (N : Nat) : List α → List (List α)
  | [] => []
  | a :: l =>
    if h : 0 < N then (a :: l).take N :: chunksOf N ((a :: l).drop N) else []
termination_by l => l.length
decreasing_by
  simp only [List.length_drop, List.length_cons]
  omega

/-- Model of Python `str.strip()`: drop leading and trailing whitespace. -/
def pyStrip (s : String) : String :=
  String.mk (((s.data.dropWhile Char.isWhitespace).reverse.dropWhile
    Char.isWhitespace).reverse)

/-- State of a `FileConnector` (connectors.py): the watched path and the
`last_modified` cursor. -/
structure FileConn where
  path : String
  last_modified : Nat
deriving DecidableEq

/-- What the filesystem presents to one `FileConnector.check` call:
whether the path exists, its modification time, and the outcome of
reading the file (error message on failure). -/
structure FileFS where
  pathExists : Bool
  mtime : Nat
  readResult : Except String String

/-- Text produced when the target file cannot be read, from the f-string
in connectors.py line 68. -/
def readErrText (path e : String) : String :=
  "Can" ++ apos ++ "t read the target file `" ++ path ++ "`: " ++ e

/-- Model of `FileConnector.check` (connectors.py lines 57-70). -/
def fileCheck (fs : FileFS) (c : FileConn) : List String × FileConn :=
  if fs.pathExists = false then ([], c)
  else if fs.mtime ≤ c.last_modified then ([], c)
  else
    let content :=
      match fs.readResult with
      | Except.ok s => pyStrip s
      | Except.error e => readErrText c.path e
    ([content], { c with last_modified := fs.mtime })

/-- Display mode of a `FolderConnector` (`show` parameter). -/
inductive ShowMode
  | list
  | count
deriving DecidableEq

/-- Model of `FolderConnector.showfuncMap`: LIST prints the names on
separate lines, COUNT prints the number of files. -/
def showFiles : ShowMode → List String → String
  | ShowMode.list, fl => "\n" ++ String.intercalate "\n" fl
  | ShowMode.count, fl => " " ++ toString fl.length

/-- Model of `set(a).difference(b)`; snapshots are duplicate-free walk
results, kept in first-occurrence order. -/
def setDiff (a b : List String) : List String :=
  a.filter (fun x => !(b.contains x))

/-- Value of `FolderConnector.TriggerOn.ADD`. -/
def ADDmask : Nat := 1

/-- Value of `FolderConnector.TriggerOn.DEL`. -/
def DELmask : Nat := 2

/-- State of a `FolderConnector`: the `files` snapshot cursor is `none`
only in the hypothetical first-observation state that the `None` guard in
`check` handles (the constructor always stores a tuple). -/
structure FolderConn where
  path : String
  trigger : Nat
  mode : ShowMode
  files : Option (List String)
  last_modified : Nat
deriving DecidableEq

/-- What the filesystem presents to one `FolderConnector.check` call:
whether the root exists, the walk result (posix-style paths), and the
current wall-clock time. -/
structure FolderFS where
  rootExists : Bool
  walked : List String
  now : Nat

/-- Model of `FolderConnector.check` (connectors.py lines 100-118): when
the root is missing the snapshot is reset to the empty tuple and the
empty result returned; otherwise the diff against the previous snapshot
(if any) is emitted subject to the trigger mask, and the new snapshot is
always stored. -/
def folderCheck (fs : FolderFS) (c : FolderConn) : List String × FolderConn :=
  if fs.rootExists = false then ([], { c with files := some [] })
  else
    match c.files with
    | none => ([], { c with files := some fs.walked })
    | some old =>
      let removed := setDiff old fs.walked
      let added := setDiff fs.walked old
      let content :=
        (if removed ≠ [] ∧ c.trigger &&& DELmask ≠ 0
          then ["Removed files:" ++ showFiles c.mode removed] else [])
        ++ (if added ≠ [] ∧ c.trigger &&& ADDmask ≠ 0
          then ["Added files:" ++ showFiles c.mode added] else [])
      (content, { c with files := some fs.walked, last_modified := fs.now })

/-- Fetched SQL row: association list column-name to value; ordering
values modelled as `Nat`. -/
abbrev Row := List (String × Nat)

/-- Model of `row[self.order]`. -/
def getCol (order : String) (row : Row) : Nat :=
  ((row.find? (fun kv => kv.1 == order)).map (fun kv => kv.2)).getD 0

/-- Row rendering of `SQLConnector.check` (connectors.py line 168):
`key = value` pairs joined by a comma for every non-ordering column. -/
def renderRow (order : String) (row : Row) : String :=
  String.intercalate ", "
    ((row.filter (fun kv => kv.1 != order)).map
      (fun kv => kv.1 ++ " = " ++ toString kv.2))

/-- Row rendering as the spec sentence describes it: a per-row header
derived from the ordering value followed by `key = value` lines.  Written
from the spec words only, to be compared with `renderRow` from the
source. -/
def renderRow_spec (order : String) (row : Row) : String :=
  "[" ++ toString (getCol order row) ++ "]" ++ "\n" ++
    String.intercalate "\n"
      ((row.filter (fun kv => kv.1 != order)).map
        (fun kv => kv.1 ++ " = " ++ toString kv.2))

/-- Insertion step of the ascending sort on the ordering column. -/
def insertRow (order : String) (r : Row) : List Row → List Row
  | [] => [r]
  | x :: xs =>
    if getCol order r ≤ getCol order x then r :: x :: xs
    else x :: insertRow order r xs

/-- Ascending sort on the ordering column (`ORDER BY {self.order}`). -/
def sortRows (order : String) : List Row → List Row
  | [] => []
  | r :: rs => insertRow order r (sortRows order rs)

/-- Model of the query in connectors.py line 155:
`SELECT * FROM {table} WHERE {order} > %s ORDER BY {order}` with the
cursor as parameter. -/
def queryNew (order : String) (cursor : Nat) (dbtable : List Row) : List Row :=
  sortRows order (dbtable.filter (fun r => decide (cursor < getCol order r)))

/-- Model of Python `max` over a nonempty list (0 on the empty list, a
case the code never reaches). -/
def maxOrd : List Nat → Nat
  | [] => 0
  | [x] => x
  | x :: y :: xs => max x (maxOrd (y :: xs))

/-- State of an `SQLConnector`: `state` holds the last failed connect
message (`None` when connected). -/
structure SQLConn where
  table : String
  order : String
  state : Option String
  last_modified : Nat
deriving DecidableEq

/-- Successful-query core of `SQLConnector.check` (connectors.py lines
165-169): if nothing exceeded the cursor return empty, else advance the
cursor to the maximum ordering value and render each row. -/
def sqlCheckOk (c : SQLConn) (dbtable : List Row) : List String × SQLConn :=
  let rows := queryNew c.order c.last_modified dbtable
  if rows = [] then ([], c)
  else (rows.map (renderRow c.order),
        { c with last_modified := maxOrd (rows.map (getCol c.order)) })

/-- Failure environment of one `SQLConnector.check` call: whether the
`execute` of attempt `n` raises (and with which message), and whether the
`n`-th `connect()` call of this check fails. -/
structure SQLEnv where
  dbtable : List Row
  queryErr : Nat → Option String
  reconnectErr : Nat → Option String

/-- Result of one `SQLConnector.check` call, together with how many
`connect()` calls the check itself made. -/
structure SQLOut where
  content : List String
  conn : SQLConn
  reconnects : Nat

/-- Model of `SQLConnector.check` (connectors.py lines 150-169) with the
two-attempt loop unrolled: every failed attempt triggers a reconnect; a
failed reconnect's message is returned as the sole result, and after the
second failed attempt with a successful reconnect the query error itself
is returned. -/
def sqlCheck (env : SQLEnv) (c : SQLConn) : SQLOut :=
  match c.state with
  | some st => ⟨[st], c, 0⟩
  | none =>
    match env.queryErr 0 with
    | none =>
      let r := sqlCheckOk c env.dbtable
      ⟨r.1, r.2, 0⟩
    | some _ =>
      match env.reconnectErr 0 with
      | some rerr => ⟨[rerr], { c with state := some rerr }, 1⟩
      | none =>
        match env.queryErr 1 with
        | none =>
          let r := sqlCheckOk c env.dbtable
          ⟨r.1, r.2, 1⟩
        | some ex1 =>
          match env.reconnectErr 1 with
          | some rerr => ⟨[rerr], { c with state := some rerr }, 2⟩
          | none => ⟨[ex1], c, 2⟩

/-- Keyword map a connector's `context` property yields for rebuild:
`modified` always, `files` for FolderConnector. -/
structure Ctx where
  modified : Option Nat := none
  files : Option (List String) := none

/-- Model of `Connector.__init__` for a FileConnector: `last_modified =
modified if isinstance(modified, dt.datetime) else dt.datetime.now()`. -/
def mkFileConn (path : String) (ctx : Ctx) (now : Nat) : FileConn :=
  { path := path, last_modified := ctx.modified.getD now }

/-- Model of `FolderConnector.__init__`: base init plus `files = files if
isinstance(files, tuple) else <walk of the root>`. -/
def mkFolderConn (path : String) (trigger : Nat) (mode : ShowMode)
    (ctx : Ctx) (now : Nat) (walked : List String) : FolderConn :=
  { path := path, trigger := trigger, mode := mode,
    files := some (ctx.files.getD walked),
    last_modified := ctx.modified.getD now }

/-- Model of `SQLConnector.__init__`: base init plus
`self.state = self.connect()`. -/
def mkSQLConn (tbl order : String) (ctx : Ctx) (now : Nat)
    (connFail : Option String) : SQLConn :=
  { table := tbl, order := order, state := connFail,
    last_modified := ctx.modified.getD now }

/-- Base `Connector.context` property for a FileConnector. -/
def FileConn.context (c : FileConn) : Ctx :=
  { modified := some c.last_modified }

/-- Overridden `FolderConnector.context` property: modified and files. -/
def FolderConn.context (c : FolderConn) : Ctx :=
  { modified := some c.last_modified, files := c.files }

/-- Base `Connector.context` property, inherited by SQLConnector. -/
def SQLConn.context (c : SQLConn) : Ctx :=
  { modified := some c.last_modified }

/-- One reconcile step for a FILE source whose declared parameters are
unchanged: `__actualize` captures `job.data.context` before closing the
old connector and passes it as keyword arguments to the constructor of
the fresh one. -/
def rebuildFile (c : FileConn) (now : Nat) : FileConn :=
  mkFileConn c.path c.context now

/-- Reconcile step for a FOLDER source with unchanged parameters. -/
def rebuildFolder (c : FolderConn) (now : Nat) (walked : List String) : FolderConn :=
  mkFolderConn c.path c.trigger c.mode c.context now walked

/-- Reconcile step for an SQL source with unchanged parameters. -/
def rebuildSQL (c : SQLConn) (now : Nat) (connFail : Option String) : SQLConn :=
  mkSQLConn c.table c.order c.context now connFail

/-- Outcome of the retry loop for one chunk: delivered flag, next send
counter, clock after the loop, and the number of attempts made. -/
structure ChunkResult where
  delivered : Bool
  k : Nat
  clock : Nat
  attempts : Nat
deriving DecidableEq

/-- Retry loop of `__send_by_parts` for one part (service.py lines
144-154): while the monotonic clock is within `LIFETIME` of `started`,
attempt delivery (`oracle k` tells whether the k-th send of this dispatch
succeeds), sleeping `INTERVAL` after each failure; on expiry the `else`
branch logs and makes no further attempt.  Successful sends are modelled
as instantaneous. -/
def deliverChunk (LIFETIME INTERVAL started : Nat) (hI : 0 < INTERVAL)
    (oracle : Nat → Bool) (k clock : Nat) : ChunkResult :=
  if h : clock - started ≤ LIFETIME then
    if oracle k then ⟨true, k + 1, clock, 1⟩
    else
      let r := deliverChunk LIFETIME INTERVAL started hI oracle (k + 1) (clock + INTERVAL)
      ⟨r.delivered, r.k, r.clock, r.attempts + 1⟩
  else ⟨false, k, clock, 0⟩
termination_by LIFETIME + started + 1 - clock
decreasing_by omega

/-- Chunk loop of `__send_by_parts`: `started` is captured once (at clock
0) before the first chunk, and the clock threads through all chunks. -/
def sendLoop (LIFETIME INTERVAL : Nat) (hI : 0 < INTERVAL) (oracle : Nat → Bool) :
    List (List Char) → Nat → Nat → List (Bool × Nat)
  | [], _, _ => []
  | _ :: rest, k, clock =>
    let r := deliverChunk LIFETIME INTERVAL 0 hI oracle k clock
    (r.delivered, r.attempts) :: sendLoop LIFETIME INTERVAL hI oracle rest r.k r.clock

/-- Model of `BotService.__send_by_parts` (service.py lines 130-154): for
each chunk of the message, the delivered flag and the number of delivery
attempts made for it. -/
def sendByParts (LIFETIME INTERVAL : Nat) (hI : 0 < INTERVAL) (oracle : Nat → Bool)
    (message : List Char) (LEN : Nat) : List (Bool × Nat) :=
  sendLoop LIFETIME INTERVAL hI oracle (chunksOf LEN message) 0 0

/-- Concrete failure environment: every query attempt raises, the first
reconnect succeeds and the second reconnect fails. -/
def sqlEnvTwoFailures : SQLEnv :=
  ⟨[], fun _ => some "query failed",
    fun n => if n = 0 then none else some "reconnect failed"⟩

/-! Helper lemmas. -/

theorem mem_insertRow (o : String) (r x : Row) (l : List Row) :
    x ∈ insertRow o r l ↔ x = r ∨ x ∈ l := by
  induction l with
  | nil => simp [insertRow]
  | cons y ys ih =>
    by_cases h : getCol o r ≤ getCol o y
    · simp [insertRow, h]
    · simp only [insertRow, if_neg h, List.mem_cons, ih]
      tauto

theorem mem_sortRows (o : String) (x : Row) (l : List Row) :
    x ∈ sortRows o l ↔ x ∈ l := by
  induction l with
  | nil => simp [sortRows]
  | cons y ys ih => simp [sortRows, mem_insertRow, ih]

theorem le_maxOrd (l : List Nat) (x : Nat) (hx : x ∈ l) : x ≤ maxOrd l := by
  induction l with
  | nil => cases hx
  | cons a as ih =>
    rcases List.mem_cons.mp hx with rfl | h
    · cases as with
      | nil => exact Nat.le_refl _
      | cons b bs => exact show x ≤ max x (maxOrd (b :: bs)) from le_max_left _ _
    · cases as with
      | nil => cases h
      | cons b bs =>
        exact le_trans (ih h)
          (show maxOrd (b :: bs) ≤ max a (maxOrd (b :: bs)) from le_max_right _ _)

theorem maxOrd_mem (l : List Nat) (h : l ≠ []) : maxOrd l ∈ l := by
  induction l with
  | nil => exact absurd rfl h
  | cons a as ih =>
    cases as with
    | nil => simp [maxOrd]
    | cons b bs =>
      have hm : maxOrd (a :: b :: bs) = max a (maxOrd (b :: bs)) := rfl
      rcases max_choice a (maxOrd (b :: bs)) with hc | hc
      · rw [hm, hc]; exact List.mem_cons_self _ _
      · rw [hm, hc]; exact List.mem_cons_of_mem _ (ih (by simp))

theorem queryNew_mem_gt (o : String) (cur : Nat) (tbl : List Row) (r : Row)
    (h : r ∈ queryNew o cur tbl) : cur < getCol o r := by
  unfold queryNew at h
  rw [mem_sortRows] at h
  simpa using (List.mem_filter.mp h).2

theorem queryNew_mem_table (o : String) (cur : Nat) (tbl : List Row) (r : Row)
    (h : r ∈ queryNew o cur tbl) : r ∈ tbl := by
  unfold queryNew at h
  rw [mem_sortRows] at h
  exact (List.mem_filter.mp h).1

theorem remLine_ne_addLine (s t : String) :
    ("Removed files:" ++ s) ≠ ("Added files:" ++ t) := by
  intro h
  have h2 : (("Removed files:" ++ s).data).take 6 = (("Added files:" ++ t).data).take 6 := by
    rw [h]
  rw [String.data_append, String.data_append,
    List.take_append_of_le_length (by decide),
    List.take_append_of_le_length (by decide)] at h2
  exact absurd h2 (by decide)

/-! Claim theorems. -/

/-- C9: `FileConnector.check`: a missing path gives an empty result with
the cursor unchanged; an mtime not strictly newer than the cursor gives
an empty result; otherwise the whitespace-trimmed content (or, on read
failure, the error text itself) is the single result and the cursor
becomes the observed mtime; and an immediately repeated check against the
same filesystem view returns empty. -/
theorem C9_fileCheck_spec (fs : FileFS) (c : FileConn) :
    (fs.pathExists = false → fileCheck fs c = ([], c)) ∧
    (fs.mtime ≤ c.last_modified → fileCheck fs c = ([], c)) ∧
    (∀ s, fs.pathExists = true → c.last_modified < fs.mtime →
      fs.readResult = Except.ok s →
      fileCheck fs c = ([pyStrip s], { c with last_modified := fs.mtime })) ∧
    (∀ e, fs.pathExists = true → c.last_modified < fs.mtime →
      fs.readResult = Except.error e →
      fileCheck fs c = ([readErrText c.path e], { c with last_modified := fs.mtime })) ∧
    (fileCheck fs ((fileCheck fs c).2)).1 = [] := by
  refine ⟨?_, ?_, ?_, ?_, ?_⟩
  · intro hp; simp [fileCheck, hp]
  · intro hm
    by_cases hp : fs.pathExists = false
    · simp [fileCheck, hp]
    · simp [fileCheck, hp, hm]
  · intro s hp hm hr
    simp [fileCheck, hp, Nat.not_le.mpr hm, hr]
  · intro e hp hm hr
    simp [fileCheck, hp, Nat.not_le.mpr hm, hr]
  · by_cases hp : fs.pathExists = false
    · simp [fileCheck, hp]
    · by_cases hm : fs.mtime ≤ c.last_modified
      · simp [fileCheck, hp, hm]
      · simp [fileCheck, hp, hm]

/-- C9 witness: scenario A of the spec at cursor 0, mtime 1, content
"hello". -/
theorem C9_witness :
    fileCheck ⟨true, 1, Except.ok "hello"⟩ ⟨"P", 0⟩ = (["hello"], ⟨"P", 1⟩) ∧
    fileCheck ⟨true, 1, Except.ok "hello"⟩ ⟨"P", 1⟩ = ([], ⟨"P", 1⟩) := by
  constructor
  · have h := (C9_fileCheck_spec ⟨true, 1, Except.ok "hello"⟩ ⟨"P", 0⟩).2.2.1
      "hello" rfl (by decide) rfl
    exact h.trans (by decide)
  · exact (C9_fileCheck_spec ⟨true, 1, Except.ok "hello"⟩ ⟨"P", 1⟩).2.1 (by decide)

/-- C10: when the mtime is strictly newer but the read fails, the cursor
still advances to the observed mtime, so the same modification is
reported at most once: the repeated check returns empty. -/
theorem C10_read_failure_advances_cursor (fs : FileFS) (c : FileConn) (e : String)
    (hp : fs.pathExists = true) (hm : c.last_modified < fs.mtime)
    (hr : fs.readResult = Except.error e) :
    fileCheck fs c = ([readErrText c.path e], { c with last_modified := fs.mtime }) ∧
    fileCheck fs ((fileCheck fs c).2) = ([], { c with last_modified := fs.mtime }) := by
  have h1 : fileCheck fs c = ([readErrText c.path e], { c with last_modified := fs.mtime }) := by
    simp [fileCheck, hp, Nat.not_le.mpr hm, hr]
  refine ⟨h1, ?_⟩
  rw [h1]
  simp [fileCheck, hp]

/-- C10 witness: concrete read failure at cursor 0, mtime 3. -/
theorem C10_witness :
    fileCheck ⟨true, 3, Except.error "EACCES"⟩ ⟨"P", 0⟩ =
      ([readErrText "P" "EACCES"], ⟨"P", 3⟩) ∧
    fileCheck ⟨true, 3, Except.error "EACCES"⟩
      ((fileCheck ⟨true, 3, Except.error "EACCES"⟩ ⟨"P", 0⟩).2) = ([], ⟨"P", 3⟩) := by
  have h := C10_read_failure_advances_cursor ⟨true, 3, Except.error "EACCES"⟩ ⟨"P", 0⟩
    "EACCES" rfl (by decide) rfl
  exact h

/-- C6: a `FolderConnector` whose `files` cursor is absent (the
first-observation state the `None` guard in `check` handles) returns the
empty result from `check` and stores the current snapshot as the cursor,
regardless of trigger mask and of the walked content. -/
theorem C6_first_check_empty (fs : FolderFS) (c : FolderConn)
    (h : c.files = none) (hco : fs.rootExists = false → fs.walked = []) :
    (folderCheck fs c).1 = [] ∧ (folderCheck fs c).2.files = some fs.walked := by
  by_cases hr : fs.rootExists = false
  · have hw := hco hr
    simp [folderCheck, hr, hw]
  · simp [folderCheck, hr, h]

/-- C6 witness: cursor-absent state, mask ANY, nonempty directory. -/
theorem C6_witness :
    (folderCheck ⟨true, ["x"], 7⟩ ⟨"r", 3, ShowMode.list, none, 0⟩).1 = [] ∧
    (folderCheck ⟨true, ["x"], 7⟩ ⟨"r", 3, ShowMode.list, none, 0⟩).2.files = some ["x"] :=
  C6_first_check_empty ⟨true, ["x"], 7⟩ ⟨"r", 3, ShowMode.list, none, 0⟩ rfl
    (fun h => nomatch h)

/-- C1: a reconcile cycle with unchanged declared parameters hands the old
connector's `context` to the fresh constructor, so the rebuilt connector
keeps the old cursor: `last_modified` for FILE and SQL sources,
`last_modified` and the `files` snapshot for FOLDER sources. -/
theorem C1_rebuild_preserves_cursor (cf : FileConn) (cfo : FolderConn) (cs : SQLConn)
    (n1 n2 n3 : Nat) (walked : List String) (connFail : Option String)
    (l : List String) (hfo : cfo.files = some l) :
    (rebuildFile cf n1).last_modified = cf.last_modified ∧
    (rebuildFolder cfo n2 walked).last_modified = cfo.last_modified ∧
    (rebuildFolder cfo n2 walked).files = cfo.files ∧
    (rebuildSQL cs n3 connFail).last_modified = cs.last_modified := by
  refine ⟨rfl, rfl, ?_, rfl⟩
  simp [rebuildFolder, mkFolderConn, FolderConn.context, hfo]

/-- C1 witness: concrete connectors of each kind, rebuilt at a later
wall-clock time with a different walk result. -/
theorem C1_witness :
    (rebuildFile ⟨"p", 11⟩ 99).last_modified = 11 ∧
    (rebuildFolder ⟨"r", 3, ShowMode.count, some ["a"], 12⟩ 99 ["b"]).last_modified = 12 ∧
    (rebuildFolder ⟨"r", 3, ShowMode.count, some ["a"], 12⟩ 99 ["b"]).files = some ["a"] ∧
    (rebuildSQL ⟨"t", "ts", none, 13⟩ 99 none).last_modified = 13 :=
  C1_rebuild_preserves_cursor ⟨"p", 11⟩ ⟨"r", 3, ShowMode.count, some ["a"], 12⟩
    ⟨"t", "ts", none, 13⟩ 99 99 99 ["b"] none ["a"] rfl

/-- C7: after first observation (`files` holds snapshot O), a check with
root present and walk result N emits the removal line iff the trigger
mask includes DEL and O − N is nonempty, the addition line iff the mask
includes ADD and N − O is nonempty, each formatted via the display mode,
and always stores N as the new snapshot (and refreshes the timestamp). -/
theorem C7_diff_check (fs : FolderFS) (c : FolderConn) (old : List String)
    (h : c.files = some old) (hr : fs.rootExists = true) :
    (folderCheck fs c).1 =
      ((if setDiff old fs.walked ≠ [] ∧ c.trigger &&& DELmask ≠ 0
        then ["Removed files:" ++ showFiles c.mode (setDiff old fs.walked)] else [])
      ++ (if setDiff fs.walked old ≠ [] ∧ c.trigger &&& ADDmask ≠ 0
        then ["Added files:" ++ showFiles c.mode (setDiff fs.walked old)] else [])) ∧
    (("Removed files:" ++ showFiles c.mode (setDiff old fs.walked)) ∈ (folderCheck fs c).1 ↔
      (setDiff old fs.walked ≠ [] ∧ c.trigger &&& DELmask ≠ 0)) ∧
    (("Added files:" ++ showFiles c.mode (setDiff fs.walked old)) ∈ (folderCheck fs c).1 ↔
      (setDiff fs.walked old ≠ [] ∧ c.trigger &&& ADDmask ≠ 0)) ∧
    (folderCheck fs c).2.files = some fs.walked ∧
    (folderCheck fs c).2.last_modified = fs.now := by
  have hne := remLine_ne_addLine (showFiles c.mode (setDiff old fs.walked))
    (showFiles c.mode (setDiff fs.walked old))
  refine ⟨?_, ?_, ?_, ?_, ?_⟩
  · simp [folderCheck, hr, h]
  · by_cases h1 : setDiff old fs.walked ≠ [] ∧ c.trigger &&& DELmask ≠ 0 <;>
      by_cases h2 : setDiff fs.walked old ≠ [] ∧ c.trigger &&& ADDmask ≠ 0 <;>
      simp [folderCheck, hr, h, h1, h2, hne]
  · by_cases h1 : setDiff old fs.walked ≠ [] ∧ c.trigger &&& DELmask ≠ 0 <;>
      by_cases h2 : setDiff fs.walked old ≠ [] ∧ c.trigger &&& ADDmask ≠ 0 <;>
      simp [folderCheck, hr, h, h1, h2, Ne.symm hne]
  · simp [folderCheck, hr, h]
  · simp [folderCheck, hr, h]

/-- C7 witness: scenario B of the spec — snapshot {a.txt, b.txt}, walk
{a.txt, c.txt}, trigger ANY, display LIST. -/
theorem C7_witness :
    (folderCheck ⟨true, ["a.txt", "c.txt"], 9⟩
        ⟨"r", 3, ShowMode.list, some ["a.txt", "b.txt"], 0⟩).1 =
      ["Removed files:" ++ showFiles ShowMode.list ["b.txt"],
       "Added files:" ++ showFiles ShowMode.list ["c.txt"]] ∧
    (folderCheck ⟨true, ["a.txt", "c.txt"], 9⟩
        ⟨"r", 3, ShowMode.list, some ["a.txt", "b.txt"], 0⟩).2.files =
      some ["a.txt", "c.txt"] := by
  have h := C7_diff_check ⟨true, ["a.txt", "c.txt"], 9⟩
    ⟨"r", 3, ShowMode.list, some ["a.txt", "b.txt"], 0⟩ ["a.txt", "b.txt"] rfl rfl
  refine ⟨h.1.trans ?_, h.2.2.2.1⟩
  decide

/-- C8 counterexample: a `FolderConnector` with stored snapshot `["a"]`
whose root path is absent at the next check resets its snapshot cursor to
the empty tuple instead of keeping it. -/
theorem C8_counterexample :
    (folderCheck ⟨false, [], 5⟩ ⟨"r", 3, ShowMode.count, some ["a"], 0⟩).2.files =
      some [] ∧
    some ([] : List String) ≠ some ["a"] :=
  ⟨rfl, by decide⟩

theorem sqlCheckOk_monotone (c : SQLConn) (tbl : List Row) :
    c.last_modified ≤ (sqlCheckOk c tbl).2.last_modified := by
  by_cases hrows : queryNew c.order c.last_modified tbl = []
  · simp [sqlCheckOk, hrows]
  · obtain ⟨r, hrmem⟩ := List.exists_mem_of_ne_nil _ hrows
    have h1 : c.last_modified < getCol c.order r := queryNew_mem_gt _ _ _ _ hrmem
    have h2 : getCol c.order r ≤
        maxOrd ((queryNew c.order c.last_modified tbl).map (getCol c.order)) :=
      le_maxOrd _ _ (List.mem_map_of_mem _ hrmem)
    have h3 : (sqlCheckOk c tbl).2.last_modified =
        maxOrd ((queryNew c.order c.last_modified tbl).map (getCol c.order)) := by
      simp [sqlCheckOk, hrows]
    omega

theorem sqlCheck_monotone (env : SQLEnv) (c : SQLConn) :
    c.last_modified ≤ (sqlCheck env c).conn.last_modified := by
  unfold sqlCheck
  cases hs : c.state with
  | some st => simp
  | none =>
    cases hq0 : env.queryErr 0 with
    | none => simpa using sqlCheckOk_monotone c env.dbtable
    | some e0 =>
      cases hr0 : env.reconnectErr 0 with
      | some r0 => simp
      | none =>
        cases hq1 : env.queryErr 1 with
        | none => simpa using sqlCheckOk_monotone c env.dbtable
        | some e1 =>
          cases hr1 : env.reconnectErr 1 with
          | some r1 => simp
          | none => simp

/-- C8 amended: FileWatcher and TableWatcher cursors are never rewound or
reset by any `check()` (they only ever stay or advance), but a
TreeWatcher whose root path is absent at a check resets its snapshot
cursor to the empty tuple (its `last_modified` is left alone there). -/
theorem C8_amended_no_reset_except_tree (fs : FileFS) (c : FileConn)
    (env : SQLEnv) (cs : SQLConn) (ffs : FolderFS) (cf : FolderConn) :
    c.last_modified ≤ (fileCheck fs c).2.last_modified ∧
    cs.last_modified ≤ (sqlCheck env cs).conn.last_modified ∧
    (ffs.rootExists = false →
      (folderCheck ffs cf).2.files = some [] ∧
      (folderCheck ffs cf).2.last_modified = cf.last_modified) := by
  refine ⟨?_, sqlCheck_monotone env cs, ?_⟩
  · by_cases hp : fs.pathExists = false
    · simp [fileCheck, hp]
    · by_cases hm : fs.mtime ≤ c.last_modified
      · simp [fileCheck, hp, hm]
      · simp [fileCheck, hp, hm]
        omega
  · intro hroot
    simp [folderCheck, hroot]

/-- C8 witness: concrete instances for all three connector kinds. -/
theorem C8_witness :
    (1 : Nat) ≤ (fileCheck ⟨true, 5, Except.ok "x"⟩ ⟨"p", 1⟩).2.last_modified ∧
    (4 : Nat) ≤ (sqlCheck sqlEnvTwoFailures ⟨"t", "ts", none, 4⟩).conn.last_modified ∧
    ((folderCheck ⟨false, [], 9⟩ ⟨"r", 3, ShowMode.count, some ["a"], 2⟩).2.files =
        some [] ∧
      (folderCheck ⟨false, [], 9⟩ ⟨"r", 3, ShowMode.count, some ["a"], 2⟩).2.last_modified
        = 2) := by
  have h := C8_amended_no_reset_except_tree ⟨true, 5, Except.ok "x"⟩ ⟨"p", 1⟩
    sqlEnvTwoFailures ⟨"t", "ts", none, 4⟩ ⟨false, [], 9⟩
    ⟨"r", 3, ShowMode.count, some ["a"], 2⟩
  exact ⟨h.1, h.2.1, h.2.2 rfl⟩

/-- C3: for chunk size N > 0 the successive slices of length N
concatenate back to the original character sequence and each slice has
length at most N. -/
theorem C3_chunk_roundtrip (N : Nat) (s : List Char) (h : 0 < N) :
    (chunksOf N s).flatten = s ∧ ∀ c ∈ chunksOf N s, c.length ≤ N := by
  suffices H : ∀ (n : Nat) (s : List Char), s.length ≤ n →
      (chunksOf N s).flatten = s ∧ ∀ c ∈ chunksOf N s, c.length ≤ N from
    H s.length s (Nat.le_refl _)
  intro n
  induction n with
  | zero =>
    intro s hs
    have hnil : s = [] := List.eq_nil_of_length_eq_zero (Nat.le_zero.mp hs)
    subst hnil
    constructor
    · simp [chunksOf]
    · simp [chunksOf]
  | succ n ih =>
    intro s hs
    cases s with
    | nil =>
      constructor
      · simp [chunksOf]
      · simp [chunksOf]
    | cons a l =>
      have heq : chunksOf N (a :: l) =
          (a :: l).take N :: chunksOf N ((a :: l).drop N) := by
        simp [chunksOf, h]
      have hlen : ((a :: l).drop N).length ≤ n := by
        simp only [List.length_drop, List.length_cons]
        simp only [List.length_cons] at hs
        omega
      obtain ⟨ih1, ih2⟩ := ih _ hlen
      rw [heq]
      constructor
      · rw [List.flatten_cons, ih1, List.take_append_drop]
      · intro c hc
        rcases List.mem_cons.mp hc with rfl | hc2
        · simp [List.length_take]
        · exact ih2 c hc2

/-- C3 witness: a concrete six-character message with chunk size 4. -/
theorem C3_witness :
    (0 : Nat) < 4 ∧ (chunksOf 4 ("hello!".data)).flatten = "hello!".data :=
  ⟨by decide, (C3_chunk_roundtrip 4 ("hello!".data) (by decide)).1⟩

/-- C4 counterexample: a row whose ordering column `ts` is 5 and whose
only other column is `a = 1` is rendered by the code as exactly "a = 1"
(comma-joined pairs, no per-row header), not as a header derived from the
ordering value followed by lines as the claim describes. -/
theorem C4_counterexample :
    sqlCheckOk ⟨"t", "ts", none, 0⟩ [[("ts", 5), ("a", 1)]] =
      (["a = 1"], ⟨"t", "ts", none, 5⟩) ∧
    renderRow_spec "ts" [("ts", 5), ("a", 1)] = "[5]" ++ "\n" ++ "a = 1" ∧
    renderRow "ts" [("ts", 5), ("a", 1)] ≠ renderRow_spec "ts" [("ts", 5), ("a", 1)] := by
  refine ⟨by decide, by decide, by decide⟩

/-- C4 amended: on an established connection with a successful query, the
result is empty with the cursor unchanged exactly when no row's ordering
value exceeds the cursor; otherwise every returned row's ordering value
strictly exceeds the cursor at call start, the cursor becomes the maximum
ordering value among the returned rows, and each row is rendered as one
result string of `key = value` pairs joined by a comma for every column
other than the ordering column (no per-row header). -/
theorem C4_table_check_amended (c : SQLConn) (dbtable : List Row) :
    (queryNew c.order c.last_modified dbtable = [] ↔
      ∀ r ∈ dbtable, getCol c.order r ≤ c.last_modified) ∧
    (queryNew c.order c.last_modified dbtable = [] →
      sqlCheckOk c dbtable = ([], c)) ∧
    (∀ r ∈ queryNew c.order c.last_modified dbtable,
      c.last_modified < getCol c.order r) ∧
    (queryNew c.order c.last_modified dbtable ≠ [] →
      (sqlCheckOk c dbtable).1 =
        (queryNew c.order c.last_modified dbtable).map (renderRow c.order) ∧
      (∀ r ∈ queryNew c.order c.last_modified dbtable,
        getCol c.order r ≤ (sqlCheckOk c dbtable).2.last_modified) ∧
      (sqlCheckOk c dbtable).2.last_modified ∈
        (queryNew c.order c.last_modified dbtable).map (getCol c.order)) := by
  refine ⟨⟨?_, ?_⟩, ?_, ?_, ?_⟩
  · intro hnil r hr
    by_contra hlt
    push_neg at hlt
    have hmem : r ∈ queryNew c.order c.last_modified dbtable := by
      unfold queryNew
      rw [mem_sortRows]
      exact List.mem_filter.mpr ⟨hr, by simpa using hlt⟩
    rw [hnil] at hmem
    cases hmem
  · intro hall
    rw [List.eq_nil_iff_forall_not_mem]
    intro r hmem
    have h1 := queryNew_mem_gt _ _ _ _ hmem
    have h2 := queryNew_mem_table _ _ _ _ hmem
    exact absurd h1 (Nat.not_lt.mpr (hall r h2))
  · intro hnil
    simp [sqlCheckOk, hnil]
  · exact fun r hr => queryNew_mem_gt _ _ _ _ hr
  · intro hne
    refine ⟨by simp [sqlCheckOk, hne], ?_, ?_⟩
    · intro r hr
      have hle : getCol c.order r ≤
          maxOrd ((queryNew c.order c.last_modified dbtable).map (getCol c.order)) :=
        le_maxOrd _ _ (List.mem_map_of_mem _ hr)
      simpa [sqlCheckOk, hne] using hle
    · have hmm : maxOrd ((queryNew c.order c.last_modified dbtable).map (getCol c.order)) ∈
          (queryNew c.order c.last_modified dbtable).map (getCol c.order) :=
        maxOrd_mem _ (fun hmap => hne (List.map_eq_nil_iff.mp hmap))
      simpa [sqlCheckOk, hne] using hmm

/-- C4 witness: the amended theorem applied at a concrete one-row
table. -/
theorem C4_witness :
    (sqlCheckOk ⟨"t", "ts", none, 0⟩ [[("ts", 5), ("a", 1)]]).1 =
      (queryNew "ts" 0 [[("ts", 5), ("a", 1)]]).map (renderRow "ts") ∧
    (sqlCheckOk ⟨"t", "ts", none, 0⟩ [[("ts", 5), ("a", 1)]]).2.last_modified ∈
      (queryNew "ts" 0 [[("ts", 5), ("a", 1)]]).map (getCol "ts") := by
  have h := (C4_table_check_amended ⟨"t", "ts", none, 0⟩
    [[("ts", 5), ("a", 1)]]).2.2.2 (by decide)
  exact ⟨h.1, h.2.2⟩

/-- C5 counterexample: with both query attempts failing, the first
reconnect succeeding and the second failing, `check` makes two reconnect
attempts (not exactly one) and returns the second reconnect's failure
message instead of the query failure message. -/
theorem C5_counterexample :
    (sqlCheck sqlEnvTwoFailures ⟨"t", "ts", none, 0⟩).reconnects = 2 ∧
    (sqlCheck sqlEnvTwoFailures ⟨"t", "ts", none, 0⟩).content = ["reconnect failed"] ∧
    ¬ ((sqlCheck sqlEnvTwoFailures ⟨"t", "ts", none, 0⟩).reconnects = 1 ∧
      (sqlCheck sqlEnvTwoFailures ⟨"t", "ts", none, 0⟩).content = ["query failed"]) := by
  refine ⟨rfl, rfl, ?_⟩
  intro hcl
  cases hcl.1

/-- C5 amended: every failed query attempt triggers a reconnect (so up to
two reconnects per check); any failed reconnect's message is returned as
the sole result with the failure remembered in `state`; if both
reconnects succeed but the second query attempt also fails, that query
failure message is the sole result; in every case `check` returns a value
instead of raising. -/
theorem C5_amended_reconnect_behavior (env : SQLEnv) (c : SQLConn)
    (hstate : c.state = none) (e0 : String) (hq0 : env.queryErr 0 = some e0) :
    (∀ r0, env.reconnectErr 0 = some r0 →
      sqlCheck env c = ⟨[r0], { c with state := some r0 }, 1⟩) ∧
    (env.reconnectErr 0 = none → env.queryErr 1 = none →
      sqlCheck env c =
        ⟨(sqlCheckOk c env.dbtable).1, (sqlCheckOk c env.dbtable).2, 1⟩) ∧
    (∀ e1 r1, env.reconnectErr 0 = none → env.queryErr 1 = some e1 →
      env.reconnectErr 1 = some r1 →
      sqlCheck env c = ⟨[r1], { c with state := some r1 }, 2⟩) ∧
    (∀ e1, env.reconnectErr 0 = none → env.queryErr 1 = some e1 →
      env.reconnectErr 1 = none →
      sqlCheck env c = ⟨[e1], c, 2⟩) := by
  refine ⟨?_, ?_, ?_, ?_⟩
  · intro r0 hr0
    simp [sqlCheck, hstate, hq0, hr0]
  · intro hr0 hq1
    simp [sqlCheck, hstate, hq0, hr0, hq1]
  · intro e1 r1 hr0 hq1 hr1
    simp [sqlCheck, hstate, hq0, hr0, hq1, hr1]
  · intro e1 hr0 hq1 hr1
    simp [sqlCheck, hstate, hq0, hr0, hq1, hr1]

/-- C5 witness: the amended theorem at the concrete two-failure
environment. -/
theorem C5_witness :
    sqlCheck sqlEnvTwoFailures ⟨"t", "ts", none, 0⟩ =
      ⟨["reconnect failed"], ⟨"t", "ts", some "reconnect failed", 0⟩, 2⟩ := by
  have h := (C5_amended_reconnect_behavior sqlEnvTwoFailures ⟨"t", "ts", none, 0⟩
    rfl "query failed" rfl).2.2.1 "query failed" "reconnect failed" rfl rfl rfl
  exact h

theorem deliverChunk_expired (LIFETIME INTERVAL started : Nat) (hI : 0 < INTERVAL)
    (oracle : Nat → Bool) (k clock : Nat) (h : LIFETIME < clock - started) :
    deliverChunk LIFETIME INTERVAL started hI oracle k clock = ⟨false, k, clock, 0⟩ := by
  rw [deliverChunk]
  rw [dif_neg (by omega)]

theorem deliverChunk_attempts_pos (LIFETIME INTERVAL started : Nat) (hI : 0 < INTERVAL)
    (oracle : Nat → Bool) (k clock : Nat) (h : clock - started ≤ LIFETIME) :
    1 ≤ (deliverChunk LIFETIME INTERVAL started hI oracle k clock).attempts := by
  rw [deliverChunk, dif_pos h]
  cases ho : oracle k
  · simp [ho]
  · simp [ho]

theorem sendLoop_expired (LIFETIME INTERVAL : Nat) (hI : 0 < INTERVAL)
    (oracle : Nat → Bool) (chunks : List (List Char)) :
    ∀ k clock, LIFETIME < clock →
      sendLoop LIFETIME INTERVAL hI oracle chunks k clock =
        chunks.map (fun _ => (false, 0)) := by
  induction chunks with
  | nil => intro k clock h; simp [sendLoop]
  | cons ch rest ih =>
    intro k clock h
    have hd := deliverChunk_expired LIFETIME INTERVAL 0 hI oracle k clock (by omega)
    simp [sendLoop, hd, ih k clock h]

/-- C2 counterexample: LIFETIME 1, INTERVAL 1, chunk size 1, message "ab",
every send failing.  The first chunk gets 2 attempts and exhausts the
budget, after which the second chunk is abandoned with 0 attempts — so
chunks after an exhausted budget never attempt delivery even once, and no
chunk gets a budget measured from its own first attempt. -/
theorem C2_counterexample :
    sendByParts 1 1 Nat.one_pos (fun _ => false) ['a', 'b'] 1 =
      [(false, 2), (false, 0)] ∧
    ((sendByParts 1 1 Nat.one_pos (fun _ => false) ['a', 'b'] 1).all
      (fun p => 1 ≤ p.2)) = false := by
  constructor
  · simp [sendByParts, chunksOf, sendLoop, deliverChunk]
  · simp [sendByParts, chunksOf, sendLoop, deliverChunk]

/-- C2 amended: the lifetime budget is shared by all chunks of one
message, measured from the start of the dispatch: while the clock is
within the budget a chunk gets at least one attempt (retries at the fixed
interval), once the budget is exhausted the chunk retry loop stops, and
every chunk reached after exhaustion is abandoned with zero attempts; the
first chunk of a nonempty message always gets at least one attempt. -/
theorem C2_amended_shared_budget (LIFETIME INTERVAL : Nat) (hI : 0 < INTERVAL)
    (oracle : Nat → Bool) (started k clock : Nat) (chunks : List (List Char)) :
    (LIFETIME < clock - started →
      deliverChunk LIFETIME INTERVAL started hI oracle k clock =
        ⟨false, k, clock, 0⟩) ∧
    (clock - started ≤ LIFETIME →
      1 ≤ (deliverChunk LIFETIME INTERVAL started hI oracle k clock).attempts) ∧
    (LIFETIME < clock →
      sendLoop LIFETIME INTERVAL hI oracle chunks k clock =
        chunks.map (fun _ => (false, 0))) ∧
    (∀ a l LEN, 0 < LEN →
      1 ≤ ((sendByParts LIFETIME INTERVAL hI oracle (a :: l) LEN).headI).2) := by
  refine ⟨deliverChunk_expired LIFETIME INTERVAL started hI oracle k clock,
    deliverChunk_attempts_pos LIFETIME INTERVAL started hI oracle k clock,
    sendLoop_expired LIFETIME INTERVAL hI oracle chunks k clock, ?_⟩
  intro a l LEN hL
  have hch : chunksOf LEN (a :: l) =
      (a :: l).take LEN :: chunksOf LEN ((a :: l).drop LEN) := by
    simp [chunksOf, hL]
  unfold sendByParts
  rw [hch]
  simp only [sendLoop]
  simpa using deliverChunk_attempts_pos LIFETIME INTERVAL 0 hI oracle 0 0 (by omega)

/-- C2 witness: the amended theorem at concrete budgets and messages. -/
theorem C2_witness :
    deliverChunk 1 1 0 Nat.one_pos (fun _ => false) 0 5 = ⟨false, 0, 5, 0⟩ ∧
    1 ≤ (deliverChunk 1 1 0 Nat.one_pos (fun _ => false) 0 0).attempts ∧
    sendLoop 1 1 Nat.one_pos (fun _ => false) [['a']] 0 9 = [(false, 0)] ∧
    1 ≤ ((sendByParts 1 1 Nat.one_pos (fun _ => false) ['a'] 1).headI).2 := by
  refine ⟨(C2_amended_shared_budget 1 1 Nat.one_pos (fun _ => false) 0 0 5 []).1
      (by decide),
    (C2_amended_shared_budget 1 1 Nat.one_pos (fun _ => false) 0 0 0 []).2.1
      (by decide),
    (C2_amended_shared_budget 1 1 Nat.one_pos (fun _ => false) 0 0 9 [['a']]).2.2.1
      (by decide),
    (C2_amended_shared_budget 1 1 Nat.one_pos (fun _ => false) 0 0 0 []).2.2.2
      'a' [] 1 (by decide)⟩

end Tracker
